import Mathlib

/-!
# Verification of the base-pool-scanner aggregation and classification pipeline

This file gives a shallow embedding, in Lean 4, of the pure core of the
pool-scanner repository: the whitelist configuration, the per-variant
state decoding of multicall result slots, the classifier that turns a
decoded pool state into a `PoolOutput` record, the event-scan identifier
accumulation, the bounded-retry wrapper around log fetches, and the
chunked detail-phase driver.

Three scanner revisions are embedded:
* namespace `FP` — `src/fetch_pools.ts` (the main scanner, "Clean Mode");
* namespace `P2` — the first file of `src/unnamed/part_002` ("Final
  Strict Mode", with tiered concentrated-liquidity thresholds and a
  lowercasing whitelist lookup);
* namespace `P0` — `src/unnamed/part_000` (the early Aerodrome-only
  scanner whose chunk decoding uses a fixed per-address base index).

Machine integers (uint112 reserves, uint128 liquidity, uint24 fee) are
modelled as `Nat`, and int24 tick spacing as `Int`; none of the embedded
arithmetic can overflow the TypeScript `bigint` values it mirrors.
-/

/-- One whitelist entry's value in `TOKEN_CONFIG`: decimals and asset
class. The class is kept as the source's string tag
(`"ETH"`, `"USD"` or `"OTHER"`). -/
structure TokenInfo where
  decimals : Nat
  type : String
deriving DecidableEq

/-- One entry of the `PROTOCOLS` configuration list. `quoter`,
`countMethod` and `startBlock` are optional exactly where the source
objects omit them. -/
structure Protocol where
  name : String
  type : String
  factory : String
  router : String
  quoter : Option String := none
  method : String
  countMethod : Option String := none
  startBlock : Option Nat := none
  abiType : String
deriving DecidableEq

/-- The output record pushed onto `allPools` (the `PoolOutput` interface
of the source). Optional fields are `none` when the source leaves them
`undefined`. -/
structure PoolOutput where
  name : String
  token_a : String
  token_b : String
  router : String
  quoter : Option String := none
  pool : Option String := none
  fee : Option Nat := none
  tick_spacing : Option Int := none
  pool_fee : Option Nat := none
  protocol : String
deriving DecidableEq

/-- Decoded per-pool state, tagged by protocol variant (the spec's
`DecodedPoolState`): `v3` for concentrated-liquidity pools and `v2` for
both constant-product variants (a plain `std_v2` pool carries
`isStable = false`, matching the source's initialisation). -/
inductive DecodedPoolState where
  | v3 (t0 t1 : String) (liquidity : Nat) (fee : Nat) (tickSpacing : Int)
  | v2 (t0 t1 : String) (reserve0 reserve1 : Nat) (isStable : Bool)
deriving DecidableEq

/-- `token0` of a decoded state. -/
def DecodedPoolState.t0 : DecodedPoolState → String
  | .v3 t0 _ _ _ _ => t0
  | .v2 t0 _ _ _ _ => t0

/-- `token1` of a decoded state. -/
def DecodedPoolState.t1 : DecodedPoolState → String
  | .v3 _ t1 _ _ _ => t1
  | .v2 _ t1 _ _ _ => t1

/-- The `poolData` / `extraData` object spread into the output record:
`fee` is set only on the `v3` decode path. -/
def DecodedPoolState.feeData : DecodedPoolState → Option Nat
  | .v3 _ _ _ fee _ => some fee
  | .v2 _ _ _ _ _ => none

/-- The `tick_spacing` member of `poolData`, set only on the `v3` path. -/
def DecodedPoolState.tsData : DecodedPoolState → Option Int
  | .v3 _ _ _ _ ts => some ts
  | .v2 _ _ _ _ _ => none

/-- One slot of a multicall `BatchResult`, abstracting the raw ABI-encoded
return bytes by the typed payload they encode. `fail` stands for a
soft-failed slot (`success = false`, raw `0x`). `decodeFunctionResult`
on a slot succeeds exactly when the slot's payload has the requested
shape, mirroring strict ABI decoding. -/
inductive SlotVal where
  | addr (a : String)
  | reserves (r0 r1 ts : Nat)
  | boolv (b : Bool)
  | uintv (n : Nat)
  | intv (n : Int)
  | fail
deriving DecidableEq

/-- Reading `results[i]`; an out-of-range read behaves like a failed
slot (decoding `undefined` throws just as decoding `0x` does). -/
def getSlot (results : List SlotVal) (i : Nat) : SlotVal :=
  results.getD i .fail

/-- `decodeFunctionResult` for an `address`-returning call. -/
def decodeAddr : SlotVal → Option String
  | .addr a => some a
  | _ => none

/-- `decodeFunctionResult` for `getReserves`
(`uint112 reserve0, uint112 reserve1, uint32 blockTimestampLast`). -/
def decodeReserves : SlotVal → Option (Nat × Nat × Nat)
  | .reserves r0 r1 ts => some (r0, r1, ts)
  | _ => none

/-- `decodeFunctionResult` for a `bool`-returning call (`stable()`). -/
def decodeBool : SlotVal → Option Bool
  | .boolv b => some b
  | _ => none

/-- `decodeFunctionResult` for an unsigned-integer call
(`liquidity()`, `fee()`). -/
def decodeUint : SlotVal → Option Nat
  | .uintv n => some n
  | _ => none

/-- `decodeFunctionResult` for `tickSpacing()` (`int24`). -/
def decodeInt : SlotVal → Option Int
  | .intv n => some n
  | _ => none

/-- JavaScript `String.prototype.toLowerCase` restricted to the ASCII
addresses this code handles. -/
def lowerAddr (s : String) : String :=
  String.mk (s.data.map Char.toLower)

namespace FP

/-- `MIN_ETH_LIQUIDITY` of `fetch_pools.ts`: 0.1 ETH in wei. -/
def MIN_ETH_LIQUIDITY : Nat := 100000000000000000

/-- `MIN_USDC_LIQUIDITY` of `fetch_pools.ts`: 500 USDC (6 decimals). -/
def MIN_USDC_LIQUIDITY : Nat := 500000000

/-- The inline literal `1000000n` used in the `OTHER`-class branch of the
hard filter (the comparison there is strict `>`). -/
def MIN_OTHER_FLOOR : Nat := 1000000

/-- The inline literal `100000n` of the V3 dust filter
(`if (liq > 100000n)`). -/
def V3_LIQ_FLOOR : Nat := 100000

/-- `TOKEN_CONFIG` of `fetch_pools.ts`: mixed-case (checksummed) address
keys mapped to decimals and asset class. -/
def TOKEN_CONFIG : List (String × TokenInfo) :=
  [("0x4200000000000000000000000000000000000006", ⟨18, "ETH"⟩),
   ("0x833589fCD6eDb6E08f4c7C32D4f71b54bdA02913", ⟨6, "USD"⟩),
   ("0xd9aAEc86B65D86f6A7B5B1b0c42FFA531710b6CA", ⟨6, "USD"⟩),
   ("0x940181a94A35A4569E4529A3CDfB74e38FD98631", ⟨18, "OTHER"⟩),
   ("0x2ae3f1ec7f1f5012cfeab0185bfc7aa3cf0dec22", ⟨18, "ETH"⟩),
   ("0x50c5725949A6F0c72E6C4a641F24049A917DB0Cb", ⟨18, "USD"⟩),
   ("0x0000206329b97DB379d5E1Bf586BbDB969C63274", ⟨18, "OTHER"⟩)]

/-- `Object.keys(TOKEN_CONFIG)`. -/
def tokenKeys : List String := TOKEN_CONFIG.map Prod.fst

/-- `isWhitelisted` of `fetch_pools.ts`:
`Object.keys(TOKEN_CONFIG).includes(addr)` — an exact, case-sensitive
string membership test. -/
def isWhitelisted (addr : String) : Bool := tokenKeys.contains addr

/-- The indexing `TOKEN_CONFIG[t]` used after the whitelist test. -/
def lookupConfig (addr : String) : Option TokenInfo := TOKEN_CONFIG.lookup addr

/-- One side of the V2 hard filter (`fetch_pools.ts` lines 270–276 and
279–284): whitelisted token whose reserve clears its class threshold.
`ETH` and `USD` compare with `>=`, `OTHER` with strict `>`. -/
def checkSide (t : String) (r : Nat) : Bool :=
  if isWhitelisted t then
    match lookupConfig t with
    | some config =>
        (config.type == "ETH" && decide (MIN_ETH_LIQUIDITY ≤ r)) ||
        (config.type == "USD" && decide (MIN_USDC_LIQUIDITY ≤ r)) ||
        (config.type == "OTHER" && decide (MIN_OTHER_FLOOR < r))
    | none => false
  else false

/-- The V2 `valid` computation (`fetch_pools.ts` lines 265–285): nothing
is checked for stable pools (so `valid` stays `false`), otherwise side 0
is tried first and side 1 only when side 0 did not accept. -/
def validV2 (t0 t1 : String) (r0 r1 : Nat) (isStable : Bool) : Bool :=
  if isStable then false
  else checkSide t0 r0 || checkSide t1 r1

/-- The `valid` flag for a full decoded state (`fetch_pools.ts`
lines 235–286): V3 pools pass on `liq > 100000n` alone. -/
def valid : DecodedPoolState → Bool
  | .v3 _ _ liq _ _ => decide (V3_LIQ_FLOOR < liq)
  | .v2 t0 t1 r0 r1 isStable => validV2 t0 t1 r0 r1 isStable

/-- Building the output record (`fetch_pools.ts` lines 290–306): after
the common fields, v2-typed protocols store the pool address in `quoter`
and force `fee = 3000`, while everything else stores the configured
quoter in `quoter` and the pool address in `pool`. -/
def mkOutput (proto : Protocol) (poolAddr : String) (st : DecodedPoolState) : PoolOutput :=
  let base : PoolOutput :=
    { name := proto.name ++ "_" ++ st.t0.take 6 ++ "_" ++ poolAddr.drop 38,
      token_a := st.t0,
      token_b := st.t1,
      router := proto.router,
      protocol := proto.type,
      fee := st.feeData,
      tick_spacing := st.tsData,
      pool_fee := st.feeData }
  if proto.type == "v2" then
    { base with quoter := some poolAddr, fee := some 3000 }
  else
    { base with quoter := proto.quoter, pool := some poolAddr }

/-- The classifier of `fetch_pools.ts` (lines 264–312): the
variant-specific `valid` test followed by the universal whitelist gate
`valid && (isWhitelisted(t0) || isWhitelisted(t1))`. -/
def classify (proto : Protocol) (poolAddr : String) (st : DecodedPoolState) :
    Option PoolOutput :=
  if valid st && (isWhitelisted st.t0 || isWhitelisted st.t1) then
    some (mkOutput proto poolAddr st)
  else none

/-- The `Aerodrome_V2` entry of the `PROTOCOLS` list. -/
def aerodromeV2 : Protocol :=
  { name := "Aerodrome_V2", type := "v2",
    factory := "0x420DD381b31aEf6683db6B902084cB0FFECe40Da",
    router := "0x9a48954530d54963364f009dc42aa374f14794e7",
    method := "allPools", countMethod := some "allPoolsLength",
    abiType := "aero_v2" }

/-- The `BaseSwap` entry of the `PROTOCOLS` list. -/
def baseSwap : Protocol :=
  { name := "BaseSwap", type := "v2",
    factory := "0xFDa619b6d20975be80A10332cD39b9a4b0FAa8BB",
    router := "0x2943Ac1216979590F21832bb58459d646b5E4857",
    method := "allPairs", countMethod := some "allPairsLength",
    abiType := "std_v2" }

/-- The `Aerodrome_CL` entry of the `PROTOCOLS` list. -/
def aerodromeCL : Protocol :=
  { name := "Aerodrome_CL", type := "cl",
    factory := "0x5e7BB104d84c7CB9B682AaC2F3d509f5F406809A",
    router := "0xBE818bA15c43dF60803c40026e6E367258C17e33",
    quoter := some "0x254cf9e1e6e233aa1ac962cb9b05b2cfeaae15b0",
    method := "allPools", countMethod := some "allPoolsLength",
    abiType := "v3" }

/-- The `Uniswap_V3` entry of the `PROTOCOLS` list. -/
def uniswapV3 : Protocol :=
  { name := "Uniswap_V3", type := "v3",
    factory := "0x33128a8fC17869897dcE68Ed026d694621f6FDfD",
    router := "0x2626664c2603336E57B271c5C0b26F421741e481",
    quoter := some "0x3d4e44Eb1374240CE5F1B871ab261CD16335B76a",
    method := "logs", startBlock := some 2000000,
    abiType := "v3" }

/-- `PROTOCOLS` of `fetch_pools.ts`. -/
def PROTOCOLS : List Protocol := [aerodromeV2, baseSwap, aerodromeCL, uniswapV3]

/-- Decoding one address's slice of batch results on the `v3` path
(`fetch_pools.ts` lines 236–240): five sequential
`results[resultIdx++]` reads. Each read advances the shared index by one
before decoding, so a decode failure still leaves the index advanced
past the slot just consumed — exactly the source's post-increment
behaviour inside the per-address `try`. Returns the decoded state (or
`none` on the first failing decode) together with the index value after
the last read performed. -/
def decodeSliceV3 (results : List SlotVal) (idx : Nat) :
    Option DecodedPoolState × Nat :=
  match decodeAddr (getSlot results idx) with
  | none => (none, idx + 1)
  | some t0 =>
    match decodeAddr (getSlot results (idx + 1)) with
    | none => (none, idx + 2)
    | some t1 =>
      match decodeUint (getSlot results (idx + 2)) with
      | none => (none, idx + 3)
      | some liq =>
        match decodeUint (getSlot results (idx + 3)) with
        | none => (none, idx + 4)
        | some fee =>
          match decodeInt (getSlot results (idx + 4)) with
          | none => (none, idx + 5)
          | some ts => (some (.v3 t0 t1 liq fee ts), idx + 5)

/-- Decoding one address's slice on the `aero_v2` path
(four reads: `token0`, `token1`, `getReserves`, `stable`). -/
def decodeSliceAeroV2 (results : List SlotVal) (idx : Nat) :
    Option DecodedPoolState × Nat :=
  match decodeAddr (getSlot results idx) with
  | none => (none, idx + 1)
  | some t0 =>
    match decodeAddr (getSlot results (idx + 1)) with
    | none => (none, idx + 2)
    | some t1 =>
      match decodeReserves (getSlot results (idx + 2)) with
      | none => (none, idx + 3)
      | some (r0, r1, _) =>
        match decodeBool (getSlot results (idx + 3)) with
        | none => (none, idx + 4)
        | some isStable => (some (.v2 t0 t1 r0 r1 isStable), idx + 4)

/-- Decoding one address's slice on the `std_v2` path (three reads;
`isStable` keeps its `false` initialisation). -/
def decodeSliceStdV2 (results : List SlotVal) (idx : Nat) :
    Option DecodedPoolState × Nat :=
  match decodeAddr (getSlot results idx) with
  | none => (none, idx + 1)
  | some t0 =>
    match decodeAddr (getSlot results (idx + 1)) with
    | none => (none, idx + 2)
    | some t1 =>
      match decodeReserves (getSlot results (idx + 2)) with
      | none => (none, idx + 3)
      | some (r0, r1, _) => (some (.v2 t0 t1 r0 r1 false), idx + 3)

/-- Per-address decode dispatch on `proto.abiType`
(`fetch_pools.ts` lines 235–262). -/
def decodeSlice (abiType : String) (results : List SlotVal) (idx : Nat) :
    Option DecodedPoolState × Nat :=
  if abiType == "v3" then decodeSliceV3 results idx
  else if abiType == "aero_v2" then decodeSliceAeroV2 results idx
  else decodeSliceStdV2 results idx

/-- The inner loop over a chunk's addresses (`fetch_pools.ts`
lines 226–318): a single `resultIdx` shared by the whole chunk, one
decode-classify step per address, decode failures dropping only the
current address's record (but leaving the shared index wherever the
failing read put it). -/
def processChunk (proto : Protocol) (results : List SlotVal)
    (batchAddrs : List String) : List PoolOutput :=
  (batchAddrs.foldl
    (fun (st : Nat × List PoolOutput) poolAddr =>
      let (idx, out) := st
      match decodeSlice proto.abiType results idx with
      | (some d, idx2) =>
        match classify proto poolAddr d with
        | some rec => (idx2, out ++ [rec])
        | none => (idx2, out)
      | (none, idx2) => (idx2, out))
    (0, [])).2

/-- One chunk of the detail phase (`fetch_pools.ts` lines 224–322): the
aggregate call either fails at transport level (`none` — the source
logs `Batch failed` and falls through) or yields the chunk's result
slots. -/
def chunkOut (proto : Protocol)
    (chunk : List String × Option (List SlotVal)) : List PoolOutput :=
  match chunk.2 with
  | none => []
  | some results => processChunk proto results chunk.1

/-- The detail-phase driver over all chunks (`fetch_pools.ts`
lines 200–329): records accumulate across chunks; a failed chunk
contributes nothing and the loop continues. -/
def runDetail (proto : Protocol)
    (chunks : List (List String × Option (List SlotVal))) : List PoolOutput :=
  chunks.foldl (fun acc chunk => acc ++ chunkOut proto chunk) []

/-- The event-scan accumulation of `fetch_pools.ts` (lines 144–163):
each window's successfully parsed pool addresses are pushed straight
onto `poolAddresses`, with no deduplication. A window is given here as
the list of pool addresses parsed from its logs. -/
def scanLogs (windows : List (List String)) : List String :=
  windows.foldl (fun acc w => acc ++ w) []

/-- `getLogsWithRetry` of `fetch_pools.ts` (lines 106–117), with the
transport abstracted as the per-attempt outcome function `att`
(0-indexed attempt number, `Except` for throw-vs-return). The second
component records the `sleep` durations performed, in order. The first
argument of the recursion is the remaining loop iterations
(`retries - i`), so the structure of the `for` loop is kept: on the last
attempt's failure the error is re-thrown with no further sleep,
otherwise the loop sleeps `2000 * (i + 1)` ms and retries. -/
def retryAux {E A : Type} (att : Nat → Except E (List A)) (retries : Nat) :
    Nat → Nat → List Nat → Except E (List A) × List Nat
  | 0, _, delays => (Except.ok [], delays)
  | fuel + 1, i, delays =>
    match att i with
    | .ok v => (.ok v, delays)
    | .error e =>
      if i = retries - 1 then (.error e, delays)
      else retryAux att retries fuel (i + 1) (delays ++ [2000 * (i + 1)])

/-- Entry point of the retry wrapper: loop from `i = 0` with
`retries` iterations available (default 5). -/
def getLogsWithRetry {E A : Type} (att : Nat → Except E (List A))
    (retries : Nat := 5) : Except E (List A) × List Nat :=
  retryAux att retries retries 0 []

end FP

namespace P2

/-- `MIN_ETH_LIQUIDITY` of `part_002` (first file): 0.5 ETH in wei. -/
def MIN_ETH_LIQUIDITY : Nat := 500000000000000000

/-- `MIN_USDC_LIQUIDITY` of `part_002`: 1500 USDC. -/
def MIN_USDC_LIQUIDITY : Nat := 1500000000

/-- `MIN_OTHER_LIQUIDITY` of `part_002`. -/
def MIN_OTHER_LIQUIDITY : Nat := 5000000000000000000000

/-- `MIN_V3_LIQ_LOW` of `part_002`: the low concentrated-liquidity tier
(both sides whitelisted). -/
def MIN_V3_LIQ_LOW : Nat := 10000000000000

/-- `MIN_V3_LIQ_HIGH` of `part_002`: the high concentrated-liquidity
tier (exactly one side whitelisted). -/
def MIN_V3_LIQ_HIGH : Nat := 100000000000000

/-- `TOKEN_CONFIG` of `part_002`: all keys are lowercase. -/
def TOKEN_CONFIG : List (String × TokenInfo) :=
  [("0x4200000000000000000000000000000000000006", ⟨18, "ETH"⟩),
   ("0x833589fcd6edb6e08f4c7c32d4f71b54bda02913", ⟨6, "USD"⟩),
   ("0xd9aaec86b65d86f6a7b5b1b0c42ffa531710b6ca", ⟨6, "USD"⟩),
   ("0x50c5725949a6f0c72e6c4a641f24049a917db0cb", ⟨18, "USD"⟩),
   ("0x2ae3f1ec7f1f5012cfeab0185bfc7aa3cf0dec22", ⟨18, "ETH"⟩),
   ("0x940181a94a35a4569e4529a3cdfb74e38fd98631", ⟨18, "OTHER"⟩),
   ("0x0000206329b97db379d5e1bf586bbdb969c63274", ⟨18, "OTHER"⟩),
   ("0x399232699620ddca88632a988b8eb78c59f8ed68", ⟨18, "OTHER"⟩),
   ("0x4ed4e862860bed51a9570b96d89af5e1b0efefed", ⟨18, "OTHER"⟩),
   ("0x532f27101965dd16442e59d40670faf5ebb142e4", ⟨18, "OTHER"⟩),
   ("0xac1bd2486aaf3b5c0fc3fd868558b082a531b2b4", ⟨18, "OTHER"⟩),
   ("0x2da56acb9ea78330f947bd57c54119debda7af71", ⟨18, "OTHER"⟩),
   ("0x9d90308d16b94c38048c78680663776c5acdf949", ⟨18, "OTHER"⟩)]

/-- `Object.keys(TOKEN_CONFIG)` of `part_002`. -/
def tokenKeys : List String := TOKEN_CONFIG.map Prod.fst

/-- `isWhitelisted` of `part_002`: the address is lowercased before the
membership test
(`Object.keys(TOKEN_CONFIG).includes(addr.toLowerCase())`). -/
def isWhitelisted (addr : String) : Bool := tokenKeys.contains (lowerAddr addr)

/-- The lowercased config lookup `TOKEN_CONFIG[addr.toLowerCase()]`. -/
def lookupConfig (addr : String) : Option TokenInfo :=
  TOKEN_CONFIG.lookup (lowerAddr addr)

/-- `getTokenType` of `part_002`:
`TOKEN_CONFIG[addr.toLowerCase()]?.type || 'UNKNOWN'`. -/
def getTokenType (addr : String) : String :=
  match lookupConfig addr with
  | some config => config.type
  | none => "UNKNOWN"

/-- One side of the `part_002` V2 filter (lines 233–244): every class
compares inclusively with `>=`. -/
def checkSide (t : String) (r : Nat) : Bool :=
  if isWhitelisted t then
    (getTokenType t == "ETH" && decide (MIN_ETH_LIQUIDITY ≤ r)) ||
    (getTokenType t == "USD" && decide (MIN_USDC_LIQUIDITY ≤ r)) ||
    (getTokenType t == "OTHER" && decide (MIN_OTHER_LIQUIDITY ≤ r))
  else false

/-- The `part_002` V2 `valid` computation: side 0 first, side 1 only if
side 0 did not accept. -/
def validV2 (t0 t1 : String) (r0 r1 : Nat) : Bool :=
  checkSide t0 r0 || checkSide t1 r1

/-- The `part_002` tiered concentrated-liquidity test (lines 199–211):
both sides whitelisted → `liq > MIN_V3_LIQ_LOW`; otherwise at least one
side whitelisted → `liq > MIN_V3_LIQ_HIGH`; neither → reject. -/
def validV3 (t0 t1 : String) (liq : Nat) : Bool :=
  let isT0White := isWhitelisted t0
  let isT1White := isWhitelisted t1
  if isT0White && isT1White then decide (MIN_V3_LIQ_LOW < liq)
  else (isT0White || isT1White) && decide (MIN_V3_LIQ_HIGH < liq)

/-- Building the `part_002` output record (lines 247–257): the name uses
`t0.slice(0,6)` and `t1.slice(0,6)`; `quoter` holds the pool address for
v2-typed protocols and the configured quoter otherwise; `pool` holds the
pool address only for `v3` / `cl` types; no `fee: 3000` is ever set. -/
def mkOutput (proto : Protocol) (poolAddr : String) (st : DecodedPoolState) :
    PoolOutput :=
  { name := proto.name ++ "_" ++ st.t0.take 6 ++ "_" ++ st.t1.take 6,
    token_a := st.t0,
    token_b := st.t1,
    router := proto.router,
    protocol := proto.type,
    quoter := if proto.type == "v2" then some poolAddr else proto.quoter,
    pool := if proto.type == "v3" || proto.type == "cl" then some poolAddr
            else none,
    fee := st.feeData,
    tick_spacing := st.tsData,
    pool_fee := st.feeData }

/-- The `part_002` classifier (lines 187–259): stable aero pools are
skipped with `continue` before any reserve test; otherwise the record is
pushed exactly when the variant-specific `valid` flag is set (there is
no additional whitelist gate in this revision). -/
def classify (proto : Protocol) (poolAddr : String) (st : DecodedPoolState) :
    Option PoolOutput :=
  match st with
  | .v3 t0 t1 liq _ _ =>
    if validV3 t0 t1 liq then some (mkOutput proto poolAddr st) else none
  | .v2 t0 t1 r0 r1 isStable =>
    if isStable then none
    else if validV2 t0 t1 r0 r1 then some (mkOutput proto poolAddr st)
    else none

/-- The `BaseSwap` protocol entry of `part_002` (identical addresses to
the main scanner's). -/
def baseSwap : Protocol := FP.baseSwap

/-- The `Aerodrome_CL` protocol entry of `part_002`. -/
def aerodromeCL : Protocol := FP.aerodromeCL

/-- JavaScript `Set.prototype.add` on an insertion-ordered list of
strings: a duplicate leaves the set unchanged. -/
def setAdd (s : List String) (a : String) : List String :=
  if a ∈ s then s else s ++ [a]

/-- The `part_002` event-scan accumulation (lines 123–133): every parsed
pool address of every window is added to the `uniquePools` set, and the
resulting insertion-ordered set (`Array.from(uniquePools)`) is the
identifier list handed downstream. -/
def scanLogs (windows : List (List String)) : List String :=
  windows.foldl (fun s w => w.foldl setAdd s) []

/-- `getLogsWithRetry` of `part_002` (lines 100–105): each of the 5
attempts that throws is followed by a constant `sleep(1000)`, and after
the loop the function returns `[]` — no error is ever re-thrown. -/
def retryAux {E A : Type} (att : Nat → Except E (List A)) :
    Nat → Nat → List Nat → Except E (List A) × List Nat
  | 0, _, delays => (Except.ok [], delays)
  | fuel + 1, i, delays =>
    match att i with
    | .ok v => (.ok v, delays)
    | .error _ => retryAux att fuel (i + 1) (delays ++ [1000])

/-- Entry point of the `part_002` retry wrapper. -/
def getLogsWithRetry {E A : Type} (att : Nat → Except E (List A))
    (retries : Nat := 5) : Except E (List A) × List Nat :=
  retryAux att retries 0 []

end P2

/-- The per-pool record of `part_000` (its `PoolData` interface);
reserves are stored as decimal strings via `.toString()`. -/
structure PoolData where
  index : Nat
  address : String
  token0 : String
  token1 : String
  reserve0 : String
  reserve1 : String
deriving DecidableEq

namespace P0

/-- Whether a raw result slot is the empty bytes `0x` of a soft-failed
call (`part_000` line 101 compares the raw string against `'0x'`). -/
def isEmptyRaw : SlotVal → Bool
  | .fail => true
  | _ => false

/-- The `part_000` detail decode loop (lines 99–119): each address `k`
reads its three slots at the fixed base index `k * 3`, skips the address
when its first slot is `0x`, and drops the address alone on any decode
failure — no shared running index exists, so neighbours keep their own
slots. `i` is the batch's starting pool index. -/
def processChunk (i : Nat) (poolAddresses : List String)
    (results : List SlotVal) : List PoolData :=
  (List.range poolAddresses.length).foldl
    (fun acc k =>
      let base := k * 3
      if isEmptyRaw (getSlot results base) then acc
      else
        match decodeAddr (getSlot results base),
              decodeAddr (getSlot results (base + 1)),
              decodeReserves (getSlot results (base + 2)) with
        | some t0, some t1, some (r0, r1, _) =>
          acc ++ [{ index := i + k,
                    address := poolAddresses.getD k "",
                    token0 := t0, token1 := t1,
                    reserve0 := toString r0, reserve1 := toString r1 }]
        | _, _, _ => acc)
    []

end P0

/-! ## Acceptance predicates in the spec's vocabulary, and concrete
test data used by the claim theorems. -/

/-- The main scanner's V2 side-acceptance condition, written as a
proposition over the configuration: some whitelist entry for the token
whose class test the reserve passes (`>=` for `ETH` and `USD`, strict
`>` for `OTHER`, as the code has it). -/
def FP.codeMeets (t : String) (r : Nat) : Prop :=
  ∃ cfg, FP.lookupConfig t = some cfg ∧
    ((cfg.type = "ETH" ∧ FP.MIN_ETH_LIQUIDITY ≤ r) ∨
     (cfg.type = "USD" ∧ FP.MIN_USDC_LIQUIDITY ≤ r) ∨
     (cfg.type = "OTHER" ∧ FP.MIN_OTHER_FLOOR < r))

/-- The side-acceptance condition following the spec's words
(`reserve_i >= threshold(c)`, inclusive for every class) against the
main scanner's configured minimums; used to compare the spec's claim
with `FP.checkSide`. -/
def FP.specMeetsInclusive (t : String) (r : Nat) : Prop :=
  ∃ cfg, FP.lookupConfig t = some cfg ∧
    ((cfg.type = "ETH" ∧ FP.MIN_ETH_LIQUIDITY ≤ r) ∨
     (cfg.type = "USD" ∧ FP.MIN_USDC_LIQUIDITY ≤ r) ∨
     (cfg.type = "OTHER" ∧ FP.MIN_OTHER_FLOOR ≤ r))

/-- The `part_002` V2 side-acceptance condition as a proposition: the
lowercased lookup finds an entry whose class threshold the reserve
meets inclusively. -/
def P2.codeMeets (t : String) (r : Nat) : Prop :=
  ∃ cfg, P2.lookupConfig t = some cfg ∧
    ((cfg.type = "ETH" ∧ P2.MIN_ETH_LIQUIDITY ≤ r) ∨
     (cfg.type = "USD" ∧ P2.MIN_USDC_LIQUIDITY ≤ r) ∨
     (cfg.type = "OTHER" ∧ P2.MIN_OTHER_LIQUIDITY ≤ r))

/-- WETH, the checksummed whitelisted native-asset address. -/
def wethAddr : String := "0x4200000000000000000000000000000000000006"

/-- AERO, whitelisted with class `OTHER` in the main scanner. -/
def aeroAddr : String := "0x940181a94A35A4569E4529A3CDfB74e38FD98631"

/-- USDC as checksummed in the main scanner's whitelist. -/
def usdcCk : String := "0x833589fCD6eDb6E08f4c7C32D4f71b54bdA02913"

/-- USDC with every letter lowercased (same account, different
capitalization). -/
def usdcLo : String := "0x833589fcd6edb6e08f4c7c32d4f71b54bda02913"

/-- A non-whitelisted counter-asset address. -/
def junkTok : String := "0x1111111111111111111111111111111111111111"

/-- A second non-whitelisted token address. -/
def junkTok2 : String := "0x2222222222222222222222222222222222222222"

/-- A third non-whitelisted token address. -/
def junkTok3 : String := "0x3333333333333333333333333333333333333333"

/-- First pool address of the three-address example chunk. -/
def chunkA1 : String := "0xA100000000000000000000000000000000000001"

/-- Second pool address of the example chunk (the one whose `token0`
call soft-fails). -/
def chunkA2 : String := "0xA200000000000000000000000000000000000002"

/-- Third pool address of the example chunk. -/
def chunkA3 : String := "0xA300000000000000000000000000000000000003"

/-- Batch results for the example chunk under the `std_v2` layout
(three slots per address): address 1 and address 3 are healthy
WETH-anchored pools whose `reserve0` meets the ETH threshold, while
address 2's `token0` slot is a soft failure. -/
def chunkSlots : List SlotVal :=
  [.addr wethAddr, .addr junkTok, .reserves FP.MIN_ETH_LIQUIDITY 0 0,
   .fail, .addr junkTok2, .reserves FP.MIN_ETH_LIQUIDITY 0 0,
   .addr wethAddr, .addr junkTok3, .reserves FP.MIN_ETH_LIQUIDITY 0 0]

/-- The decoded state of example-chunk address 3 as read from its own
three slots. -/
def chunkA3State : DecodedPoolState :=
  .v2 wethAddr junkTok3 FP.MIN_ETH_LIQUIDITY 0 false

/-- A decoded WETH-anchored constant-product pool meeting the main
scanner's ETH threshold exactly; used as a concrete accepted input. -/
def stWitnessFP : DecodedPoolState :=
  .v2 wethAddr junkTok FP.MIN_ETH_LIQUIDITY 0 false

/-- A decoded WETH-anchored constant-product pool meeting the
`part_002` ETH threshold exactly. -/
def stWitnessP2 : DecodedPoolState :=
  .v2 wethAddr junkTok P2.MIN_ETH_LIQUIDITY 0 false

/-- A pool address used in concrete classifier evaluations. -/
def paWitness : String := "0xB00000000000000000000000000000000000000B"

/-! ## Helper lemmas -/

/-- Membership in the key projection of an association list coincides
with a successful `lookup`. -/
theorem contains_keys_eq_lookup_isSome (l : List (String × TokenInfo))
    (a : String) : (l.map Prod.fst).contains a = (l.lookup a).isSome := by
  induction l with
  | nil => simp [List.lookup]
  | cons h t ih =>
    rw [List.map_cons, List.contains_cons, List.lookup, ih]
    cases hb : a == h.1 <;> simp [hb]

/-- `FP.isWhitelisted` succeeds exactly when the config lookup does. -/
theorem FP.isWhitelisted_eq_lookup_main (a : String) :
    FP.isWhitelisted a = (FP.lookupConfig a).isSome := by
  simpa [FP.isWhitelisted, FP.tokenKeys, FP.lookupConfig] using
    contains_keys_eq_lookup_isSome FP.TOKEN_CONFIG a

/-- `P2.isWhitelisted` succeeds exactly when the lowercased config
lookup does. -/
theorem P2.isWhitelisted_eq_lookup_strict (a : String) :
    P2.isWhitelisted a = (P2.lookupConfig a).isSome := by
  simpa [P2.isWhitelisted, P2.tokenKeys, P2.lookupConfig] using
    contains_keys_eq_lookup_isSome P2.TOKEN_CONFIG (lowerAddr a)

/-- The `token_a` field of a main-scanner record is the decoded
`token0`. -/
theorem FP.mkOutput_token_a (proto : Protocol) (pa : String)
    (st : DecodedPoolState) : (FP.mkOutput proto pa st).token_a = st.t0 := by
  unfold FP.mkOutput
  split <;> rfl

/-- The `token_b` field of a main-scanner record is the decoded
`token1`. -/
theorem FP.mkOutput_token_b (proto : Protocol) (pa : String)
    (st : DecodedPoolState) : (FP.mkOutput proto pa st).token_b = st.t1 := by
  unfold FP.mkOutput
  split <;> rfl

/-- A side that clears its class threshold in the main scanner is in
particular whitelisted. -/
theorem FP.checkSide_white_main {t : String} {r : Nat}
    (h : FP.checkSide t r = true) : FP.isWhitelisted t = true := by
  unfold FP.checkSide at h
  by_cases hw : FP.isWhitelisted t = true
  · exact hw
  · simp [Bool.not_eq_true] at hw
    simp [hw] at h

/-- A side that clears its class threshold in `part_002` is in
particular whitelisted. -/
theorem P2.checkSide_white_strict {t : String} {r : Nat}
    (h : P2.checkSide t r = true) : P2.isWhitelisted t = true := by
  unfold P2.checkSide at h
  by_cases hw : P2.isWhitelisted t = true
  · exact hw
  · simp [Bool.not_eq_true] at hw
    simp [hw] at h

/-- The boolean side test of the main scanner decides exactly its
propositional form. -/
theorem FP.checkSide_iff_main (t : String) (r : Nat) :
    FP.checkSide t r = true ↔ FP.codeMeets t r := by
  have hw := FP.isWhitelisted_eq_lookup_main t
  unfold FP.checkSide FP.codeMeets
  cases hl : FP.lookupConfig t with
  | none =>
    rw [hl] at hw
    simp [hw, hl]
  | some cfg =>
    rw [hl] at hw
    simp only [Option.isSome_some] at hw
    simp [hw, hl, beq_iff_eq, or_assoc]

/-- The boolean side test of `part_002` decides exactly its
propositional form. -/
theorem P2.checkSide_iff_strict (t : String) (r : Nat) :
    P2.checkSide t r = true ↔ P2.codeMeets t r := by
  have hw := P2.isWhitelisted_eq_lookup_strict t
  unfold P2.checkSide P2.codeMeets P2.getTokenType
  cases hl : P2.lookupConfig t with
  | none =>
    rw [hl] at hw
    simp [hw, hl]
  | some cfg =>
    rw [hl] at hw
    simp only [Option.isSome_some] at hw
    simp [hw, hl, beq_iff_eq, or_assoc]

/-- The main classifier emits a record exactly when the variant test
and the universal whitelist gate both pass. -/
theorem FP.classify_isSome (proto : Protocol) (pa : String)
    (st : DecodedPoolState) :
    (FP.classify proto pa st).isSome =
      (FP.valid st && (FP.isWhitelisted st.t0 || FP.isWhitelisted st.t1)) := by
  unfold FP.classify
  split <;> simp_all

/-- A non-stable pool accepted by the main scanner's V2 test always has
a whitelisted side, so the final gate never rejects it. -/
theorem FP.validV2_gate {t0 t1 : String} {r0 r1 : Nat}
    (h : FP.validV2 t0 t1 r0 r1 false = true) :
    (FP.isWhitelisted t0 || FP.isWhitelisted t1) = true := by
  unfold FP.validV2 at h
  simp only [Bool.false_eq_true, if_false, Bool.or_eq_true] at h
  rcases h with h | h
  · simp [FP.checkSide_white_main h]
  · simp [FP.checkSide_white_main h]

/-- Characterisation of the main scanner's acceptance of a non-stable
constant-product pool. -/
theorem FP.classify_isSome_v2_main (proto : Protocol) (pa t0 t1 : String)
    (r0 r1 : Nat) :
    (FP.classify proto pa (.v2 t0 t1 r0 r1 false)).isSome = true ↔
      FP.codeMeets t0 r0 ∨ FP.codeMeets t1 r1 := by
  rw [FP.classify_isSome]
  constructor
  · intro h
    simp only [Bool.and_eq_true] at h
    have hv := h.1
    unfold FP.valid FP.validV2 at hv
    simp only [Bool.false_eq_true, if_false, Bool.or_eq_true] at hv
    rcases hv with hv | hv
    · exact Or.inl ((FP.checkSide_iff_main _ _).1 hv)
    · exact Or.inr ((FP.checkSide_iff_main _ _).1 hv)
  · intro h
    have hv : FP.valid (.v2 t0 t1 r0 r1 false) = true := by
      unfold FP.valid FP.validV2
      rcases h with h | h
      · simp [(FP.checkSide_iff_main t0 r0).2 h]
      · simp [(FP.checkSide_iff_main t1 r1).2 h]
    have hg := FP.validV2_gate (show FP.validV2 t0 t1 r0 r1 false = true from hv)
    simp [hv, DecodedPoolState.t0, DecodedPoolState.t1, hg]

/-- Characterisation of the main scanner's acceptance of a
concentrated-liquidity pool: one flat liquidity floor behind the
whitelist gate. -/
theorem FP.classify_isSome_v3_main (proto : Protocol) (pa t0 t1 : String)
    (liq fee : Nat) (ts : Int) :
    (FP.classify proto pa (.v3 t0 t1 liq fee ts)).isSome = true ↔
      ((FP.isWhitelisted t0 = true ∨ FP.isWhitelisted t1 = true) ∧
        FP.V3_LIQ_FLOOR < liq) := by
  rw [FP.classify_isSome]
  unfold FP.valid
  simp [DecodedPoolState.t0, DecodedPoolState.t1, and_comm]

/-- Characterisation of the `part_002` acceptance of a non-stable
constant-product pool. -/
theorem P2.classify_isSome_v2_strict (proto : Protocol) (pa t0 t1 : String)
    (r0 r1 : Nat) :
    (P2.classify proto pa (.v2 t0 t1 r0 r1 false)).isSome = true ↔
      P2.codeMeets t0 r0 ∨ P2.codeMeets t1 r1 := by
  have hiso : (P2.classify proto pa (.v2 t0 t1 r0 r1 false)).isSome
      = P2.validV2 t0 t1 r0 r1 := by
    cases hv : P2.validV2 t0 t1 r0 r1 <;> simp [P2.classify, hv]
  rw [hiso]
  unfold P2.validV2
  simp [Bool.or_eq_true, P2.checkSide_iff_strict]

/-- The `part_002` tiered boolean test, characterised: both sides
whitelisted against the low tier, exactly one side against the high
tier, neither side never. -/
theorem P2.validV3_iff (t0 t1 : String) (liq : Nat) :
    P2.validV3 t0 t1 liq = true ↔
      ((P2.isWhitelisted t0 = true ∧ P2.isWhitelisted t1 = true ∧
          P2.MIN_V3_LIQ_LOW < liq) ∨
       (((P2.isWhitelisted t0 = true ∧ P2.isWhitelisted t1 = false) ∨
         (P2.isWhitelisted t0 = false ∧ P2.isWhitelisted t1 = true)) ∧
          P2.MIN_V3_LIQ_HIGH < liq)) := by
  unfold P2.validV3
  cases h0 : P2.isWhitelisted t0 <;> cases h1 : P2.isWhitelisted t1 <;>
    simp [h0, h1]

/-- The `part_002` classifier on a concentrated-liquidity state emits a
record exactly when the tiered test passes. -/
theorem P2.classify_isSome_v3_strict (proto : Protocol) (pa t0 t1 : String)
    (liq fee : Nat) (ts : Int) :
    (P2.classify proto pa (.v3 t0 t1 liq fee ts)).isSome
      = P2.validV3 t0 t1 liq := by
  cases hv : P2.validV3 t0 t1 liq <;> simp [P2.classify, hv]

/-- The result and sleep schedule of the main retry wrapper depend only
on the attempts the loop can actually make. -/
theorem FP.retryAux_congr {E A : Type} (att att2 : Nat → Except E (List A))
    (retries fuel : Nat) :
    ∀ i delays, (∀ j, i ≤ j → j < i + fuel → att2 j = att j) →
      FP.retryAux att2 retries fuel i delays
        = FP.retryAux att retries fuel i delays := by
  induction fuel with
  | zero => intro i delays _; rfl
  | succ fuel ih =>
    intro i delays h
    unfold FP.retryAux
    rw [h i le_rfl (by omega)]
    cases hatt : att i with
    | ok v => rfl
    | error e =>
      by_cases hi : i = retries - 1
      · simp [hi]
      · simp only [hi, if_false]
        exact ih (i + 1) _ (fun j hj1 hj2 => h j (by omega) (by omega))

/-- The detail phase is the concatenation of the per-chunk outputs. -/
theorem FP.runDetail_eq_join (proto : Protocol)
    (chunks : List (List String × Option (List SlotVal))) :
    FP.runDetail proto chunks = (chunks.map (FP.chunkOut proto)).flatten := by
  suffices h : ∀ (cs : List (List String × Option (List SlotVal)))
      (acc : List PoolOutput),
      cs.foldl (fun acc c => acc ++ FP.chunkOut proto c) acc
        = acc ++ (cs.map (FP.chunkOut proto)).flatten by
    simpa [FP.runDetail] using h chunks []
  intro cs
  induction cs with
  | nil => intro acc; simp
  | cons c cs ih => intro acc; simp [ih, List.append_assoc]

/-- Adding to the insertion-ordered set keeps it duplicate-free. -/
theorem P2.setAdd_nodup {s : List String} {a : String} (h : s.Nodup) :
    (P2.setAdd s a).Nodup := by
  unfold P2.setAdd
  split
  · exact h
  · rename_i ha
    simp [List.nodup_append, h, ha]

/-- Folding a window into the set keeps it duplicate-free. -/
theorem P2.foldl_setAdd_nodup (w : List String) :
    ∀ s : List String, s.Nodup → (w.foldl P2.setAdd s).Nodup := by
  induction w with
  | nil => intro s h; exact h
  | cons x xs ih => intro s h; exact ih _ (P2.setAdd_nodup h)

/-- The whole window scan keeps the accumulated set duplicate-free. -/
theorem P2.scanLogs_nodup_aux (ws : List (List String)) :
    ∀ s : List String, s.Nodup →
      (ws.foldl (fun s w => w.foldl P2.setAdd s) s).Nodup := by
  induction ws with
  | nil => intro s h; exact h
  | cons w ws ih => intro s h; exact ih _ (P2.foldl_setAdd_nodup w s h)


/-! ## Claim theorems -/

/-- C1: a constant-product-with-stability-flag pool whose `isStable`
field is true is never converted into a `PoolRecord`, whatever its
reserves (including `reserve0 = 10^30`) and whatever the whitelist
status of its tokens — in the main scanner and in the `part_002`
variant alike. -/
theorem c1_stable_pool_never_emitted (proto : Protocol) (pa t0 t1 : String)
    (r0 r1 : Nat) :
    FP.classify proto pa (.v2 t0 t1 r0 r1 true) = none ∧
    P2.classify proto pa (.v2 t0 t1 r0 r1 true) = none := by
  constructor
  · unfold FP.classify FP.valid FP.validV2
    simp
  · unfold P2.classify
    simp

/-- C2: every record the classifier emits has at least one token in the
configured whitelist set — in the main scanner the final universal gate
enforces this even when the variant-specific test alone would accept,
and in the `part_002` variant every variant-specific test already
requires a whitelisted side. -/
theorem c2_record_has_whitelisted_side (proto proto2 : Protocol)
    (pa pa2 : String) (st st2 : DecodedPoolState) (rec rec2 : PoolOutput) :
    (FP.classify proto pa st = some rec →
      FP.isWhitelisted rec.token_a = true ∨
      FP.isWhitelisted rec.token_b = true) ∧
    (P2.classify proto2 pa2 st2 = some rec2 →
      P2.isWhitelisted rec2.token_a = true ∨
      P2.isWhitelisted rec2.token_b = true) := by
  constructor
  · intro h
    unfold FP.classify at h
    split at h
    · rename_i hc
      injection h with h2
      subst h2
      rw [FP.mkOutput_token_a, FP.mkOutput_token_b]
      simp only [Bool.and_eq_true, Bool.or_eq_true] at hc
      exact hc.2
    · exact absurd h (by simp)
  · intro h
    cases st2 with
    | v3 t0 t1 liq fee ts =>
      simp only [P2.classify] at h
      split at h
      · rename_i hv
        injection h with h2
        subst h2
        unfold P2.mkOutput
        simp only [DecodedPoolState.t0, DecodedPoolState.t1]
        rcases (P2.validV3_iff t0 t1 liq).1 hv with ⟨h0, _, _⟩ | ⟨hone, _⟩
        · exact Or.inl h0
        · rcases hone with ⟨h0, _⟩ | ⟨_, h1⟩
          · exact Or.inl h0
          · exact Or.inr h1
      · exact absurd h (by simp)
    | v2 t0 t1 r0 r1 isStable =>
      simp only [P2.classify] at h
      split at h
      · exact absurd h (by simp)
      · split at h
        · rename_i hv
          injection h with h2
          subst h2
          unfold P2.mkOutput
          simp only [DecodedPoolState.t0, DecodedPoolState.t1]
          unfold P2.validV2 at hv
          simp only [Bool.or_eq_true] at hv
          rcases hv with hv | hv
          · exact Or.inl (P2.checkSide_white_strict hv)
          · exact Or.inr (P2.checkSide_white_strict hv)
        · exact absurd h (by simp)

/-- Witness for C2: a concrete WETH-anchored pool accepted by each
scanner revision yields a record whose whitelisted side the theorem
exhibits. -/
theorem c2_witness :
    (FP.isWhitelisted (FP.mkOutput FP.baseSwap paWitness stWitnessFP).token_a
        = true ∨
     FP.isWhitelisted (FP.mkOutput FP.baseSwap paWitness stWitnessFP).token_b
        = true) ∧
    (P2.isWhitelisted (P2.mkOutput P2.baseSwap paWitness stWitnessP2).token_a
        = true ∨
     P2.isWhitelisted (P2.mkOutput P2.baseSwap paWitness stWitnessP2).token_b
        = true) := by
  have h := c2_record_has_whitelisted_side FP.baseSwap P2.baseSwap paWitness
    paWitness stWitnessFP stWitnessP2
    (FP.mkOutput FP.baseSwap paWitness stWitnessFP)
    (P2.mkOutput P2.baseSwap paWitness stWitnessP2)
  exact ⟨h.1 (by rfl), h.2 (by rfl)⟩

/-- C3 counterexample: AERO is whitelisted in the main scanner with
class `OTHER`, and a non-stable pool holding exactly the configured
`OTHER` minimum (`1000000`) in `reserve0` satisfies the spec's inclusive
side condition — yet the main classifier rejects it, because the code
compares the `OTHER` class with strict `>`. -/
theorem c3_counterexample :
    FP.specMeetsInclusive aeroAddr FP.MIN_OTHER_FLOOR ∧
    FP.classify FP.aerodromeV2 paWitness
      (.v2 aeroAddr junkTok FP.MIN_OTHER_FLOOR 0 false) = none := by
  constructor
  · exact ⟨⟨18, "OTHER"⟩, rfl, Or.inr (Or.inr ⟨rfl, le_rfl⟩)⟩
  · rfl

/-- C3 (amended): a decoded non-stable constant-product pool is accepted
by the classifier iff some side `i` has a whitelisted token whose
reserve meets its class test, where the test is inclusive (`>=`) for the
`ETH` and `USD` classes but strict (`> 1000000`) for the `OTHER` class
in the main scanner; the `part_002` variant compares inclusively for all
three classes (against its own thresholds, with the lowercased lookup).
Side 0 is tested first and side 1 only when side 0 did not accept. -/
theorem c3_nonstable_acceptance_characterised (proto : Protocol)
    (pa t0 t1 : String) (r0 r1 : Nat) :
    ((FP.classify proto pa (.v2 t0 t1 r0 r1 false)).isSome = true ↔
      FP.codeMeets t0 r0 ∨ FP.codeMeets t1 r1) ∧
    ((P2.classify proto pa (.v2 t0 t1 r0 r1 false)).isSome = true ↔
      P2.codeMeets t0 r0 ∨ P2.codeMeets t1 r1) :=
  ⟨FP.classify_isSome_v2_main proto pa t0 t1 r0 r1,
   P2.classify_isSome_v2_strict proto pa t0 t1 r0 r1⟩

/-- C4 counterexample: a concentrated-liquidity pool with exactly one
whitelisted side and raw liquidity strictly between the two `part_002`
tiers is nonetheless accepted by the main scanner, whose
concentrated-liquidity test is the single flat floor `liq > 100000n`
with no high tier. -/
theorem c4_counterexample :
    FP.isWhitelisted wethAddr = true ∧
    FP.isWhitelisted junkTok = false ∧
    P2.MIN_V3_LIQ_LOW < 20000000000000 ∧
    (20000000000000 : Nat) < P2.MIN_V3_LIQ_HIGH ∧
    (FP.classify FP.aerodromeCL paWitness
      (.v3 wethAddr junkTok 20000000000000 500 100)).isSome = true := by
  exact ⟨rfl, rfl, by norm_num [P2.MIN_V3_LIQ_LOW],
    by norm_num [P2.MIN_V3_LIQ_HIGH], rfl⟩

/-- C4 (amended): the tiered concentrated-liquidity rule holds in the
`part_002` variant — both sides whitelisted requires liquidity above the
low tier, exactly one side requires liquidity above the strictly higher
high tier, and neither side is rejected unconditionally — while the main
scanner accepts any concentrated-liquidity pool with at least one
whitelisted token whenever liquidity exceeds the single floor
`100000`. -/
theorem c4_cl_acceptance_characterised (proto : Protocol)
    (pa t0 t1 : String) (liq fee : Nat) (ts : Int) :
    ((P2.classify proto pa (.v3 t0 t1 liq fee ts)).isSome = true ↔
      ((P2.isWhitelisted t0 = true ∧ P2.isWhitelisted t1 = true ∧
          P2.MIN_V3_LIQ_LOW < liq) ∨
       (((P2.isWhitelisted t0 = true ∧ P2.isWhitelisted t1 = false) ∨
         (P2.isWhitelisted t0 = false ∧ P2.isWhitelisted t1 = true)) ∧
          P2.MIN_V3_LIQ_HIGH < liq))) ∧
    ((FP.classify proto pa (.v3 t0 t1 liq fee ts)).isSome = true ↔
      ((FP.isWhitelisted t0 = true ∨ FP.isWhitelisted t1 = true) ∧
        FP.V3_LIQ_FLOOR < liq)) := by
  constructor
  · rw [P2.classify_isSome_v3_strict]
    exact P2.validV3_iff t0 t1 liq
  · exact FP.classify_isSome_v3_main proto pa t0 t1 liq fee ts

/-- C5: evaluating the main scanner's chunk loop on a 3-address
`std_v2` chunk whose second address has a soft-failed `token0` slot.
Because the decode loop shares one running result index across the
chunk, address 2's failure leaves the index one slot short, so
address 3's reads are shifted onto address 2's remaining slots and
address 3 is dropped — the output holds address 1's record only (its
`token_b` identifies it), even though address 3's own slots decode to a
state the classifier accepts. The `part_000` loop, which reads each
address at the fixed base index `k * 3`, keeps addresses 1 and 3 on the
same input. -/
theorem c5_index_shift_on_soft_failure :
    (FP.processChunk FP.baseSwap chunkSlots
      [chunkA1, chunkA2, chunkA3]).map PoolOutput.token_b = [junkTok] ∧
    (FP.decodeSlice "std_v2" chunkSlots 6).1 = some chunkA3State ∧
    (FP.classify FP.baseSwap chunkA3 chunkA3State).isSome = true ∧
    (P0.processChunk 0 [chunkA1, chunkA2, chunkA3] chunkSlots).map
      PoolData.address = [chunkA1, chunkA3] := by
  refine ⟨rfl, rfl, rfl, rfl⟩

/-- C6 counterexample: when two (overlapping) windows return the same
creation event, the main scanner's event scan pushes the parsed address
once per window, so the identifier list handed to the detail phase
contains a duplicate. -/
theorem c6_counterexample :
    FP.scanLogs [[chunkA1], [chunkA1]] = [chunkA1, chunkA1] ∧
    ¬ (FP.scanLogs [[chunkA1], [chunkA1]]).Nodup := by
  constructor
  · rfl
  · decide

/-- C6 (amended): the `part_002` variant accumulates event-scan
addresses through a set, so the identifier list it hands to the detail
phase never contains a duplicate, whatever the windows return; the main
scanner appends parsed addresses directly and can duplicate. -/
theorem c6_event_scan_identifiers_nodup (windows : List (List String)) :
    (P2.scanLogs windows).Nodup :=
  P2.scanLogs_nodup_aux windows [] List.nodup_nil

/-- An emitted main-scanner record is exactly the built output. -/
theorem FP.classify_eq_mkOutput_main {proto : Protocol} {pa : String}
    {st : DecodedPoolState} {rec : PoolOutput}
    (h : FP.classify proto pa st = some rec) :
    rec = FP.mkOutput proto pa st := by
  unfold FP.classify at h
  split at h
  · injection h with h2
    exact h2.symm
  · exact absurd h (by simp)

/-- An emitted `part_002` record is exactly the built output. -/
theorem P2.classify_eq_mkOutput_strict {proto : Protocol} {pa : String}
    {st : DecodedPoolState} {rec : PoolOutput}
    (h : P2.classify proto pa st = some rec) :
    rec = P2.mkOutput proto pa st := by
  cases st with
  | v3 t0 t1 liq fee ts =>
    simp only [P2.classify] at h
    split at h
    · exact (Option.some_inj.mp h).symm
    · exact Option.noConfusion h
  | v2 t0 t1 r0 r1 isStable =>
    simp only [P2.classify] at h
    split at h
    · exact Option.noConfusion h
    · split at h
      · exact (Option.some_inj.mp h).symm
      · exact Option.noConfusion h

/-- C7 (amended): the main scanner's window-fetch retry wrapper makes at
most 5 attempts; when every attempt fails it sleeps
`2000 * attempt_number` ms between attempts (2000, 4000, 6000, 8000)
and re-raises the final attempt's error to the caller. The `part_002`
variant's wrapper does not behave this way (see its evaluation below):
it sleeps a constant 1000 ms and returns an empty list instead of
re-raising. -/
theorem c7_retry_backoff_and_surfacing {E A : Type}
    (att : Nat → Except E (List A))
    (h : ∀ i, i < 5 → ∃ e, att i = Except.error e) :
    FP.getLogsWithRetry att 5 = (att 4, [2000, 4000, 6000, 8000]) ∧
    ∀ att2 : Nat → Except E (List A), (∀ i, i < 5 → att2 i = att i) →
      FP.getLogsWithRetry att2 5 = FP.getLogsWithRetry att 5 := by
  constructor
  · obtain ⟨e0, h0⟩ := h 0 (by omega)
    obtain ⟨e1, h1⟩ := h 1 (by omega)
    obtain ⟨e2, h2⟩ := h 2 (by omega)
    obtain ⟨e3, h3⟩ := h 3 (by omega)
    obtain ⟨e4, h4⟩ := h 4 (by omega)
    simp [FP.getLogsWithRetry, FP.retryAux, h0, h1, h2, h3, h4]
  · intro att2 hcongr
    exact FP.retryAux_congr att att2 5 5 0 []
      (fun j hj1 hj2 => hcongr j (by omega))

/-- Witness for C7: with every attempt failing, the main wrapper
re-raises the error after sleeping 2000, 4000, 6000 and 8000 ms. -/
theorem c7_witness :
    FP.getLogsWithRetry (fun _ => Except.error (0 : Nat)) 5
      = ((Except.error 0 : Except Nat (List Nat)),
         [2000, 4000, 6000, 8000]) := by
  have h := c7_retry_backoff_and_surfacing (A := Nat)
    (fun _ => Except.error (0 : Nat)) (fun i _ => ⟨0, rfl⟩)
  simpa using h.1

/-- C7 counterexample: the `part_002` window-fetch wrapper, with every
one of its 5 attempts failing, sleeps a constant 1000 ms each time and
then returns a successful empty list — it neither backs off linearly
nor surfaces the failure. -/
theorem c7_counterexample :
    P2.getLogsWithRetry (fun _ => Except.error (0 : Nat)) 5
      = ((Except.ok ([] : List Nat) : Except Nat (List Nat)),
         [1000, 1000, 1000, 1000, 1000]) := rfl

/-- C8: a chunk whose aggregate call fails at transport level
contributes no records for any of its addresses and is never retried;
the run is exactly the run over the remaining chunks, so processing
continues and the failure never aborts the overall run. -/
theorem c8_failed_chunk_skipped (proto : Protocol)
    (pre post : List (List String × Option (List SlotVal)))
    (addrs : List String) :
    FP.runDetail proto (pre ++ (addrs, none) :: post)
      = FP.runDetail proto (pre ++ post) := by
  simp [FP.runDetail_eq_join, FP.chunkOut]

/-- C9 counterexample: a v2-typed pool accepted by the `part_002`
variant is emitted with the pool address in `quoter` but with no `fee`
field at all — `fee: 3000` is never set in that revision. -/
theorem c9_counterexample :
    (P2.classify P2.baseSwap paWitness stWitnessP2).map
      (fun r => (r.quoter, r.fee)) = some (some paWitness, none) := rfl

/-- C9 (amended): for every emitted record, a v2-typed protocol stores
the pool's own address in `quoter` (and, in the main scanner, also
forces `fee = 3000`; the `part_002` variant leaves `fee` unset for v2
records), while a v3- or cl-typed protocol stores the pool address in
`pool` and the protocol's configured quoter in `quoter`, in both
revisions. -/
theorem c9_routing_fields (proto proto2 : Protocol) (pa pa2 : String)
    (st st2 : DecodedPoolState) (rec rec2 : PoolOutput) :
    (FP.classify proto pa st = some rec →
      (proto.type = "v2" → rec.quoter = some pa ∧ rec.fee = some 3000) ∧
      (proto.type = "v3" ∨ proto.type = "cl" →
        rec.pool = some pa ∧ rec.quoter = proto.quoter)) ∧
    (P2.classify proto2 pa2 st2 = some rec2 →
      (proto2.type = "v2" → rec2.quoter = some pa2) ∧
      (proto2.type = "v3" ∨ proto2.type = "cl" →
        rec2.pool = some pa2 ∧ rec2.quoter = proto2.quoter)) := by
  constructor
  · intro h
    obtain rfl := FP.classify_eq_mkOutput_main h
    constructor
    · intro hv2
      have hb : (proto.type == "v2") = true := by rw [hv2]; rfl
      simp [FP.mkOutput, hb]
    · intro hv
      have hb : (proto.type == "v2") = false := by
        rcases hv with hv | hv <;> rw [hv] <;> rfl
      simp [FP.mkOutput, hb]
  · intro h
    obtain rfl := P2.classify_eq_mkOutput_strict h
    constructor
    · intro hv2
      have hb : (proto2.type == "v2") = true := by rw [hv2]; rfl
      simp [P2.mkOutput, hb]
    · intro hv
      have hb : (proto2.type == "v2") = false := by
        rcases hv with hv | hv <;> rw [hv] <;> rfl
      have hc : (proto2.type == "v3" || proto2.type == "cl") = true := by
        rcases hv with hv | hv <;> rw [hv] <;> rfl
      simp [P2.mkOutput, hb, hc]

/-- Witness for C9: concrete accepted pools — a v2-typed BaseSwap pool
in the main scanner gets `quoter = poolAddr` and `fee = 3000`, and a
cl-typed Aerodrome pool in `part_002` gets `pool = poolAddr` with the
protocol's configured quoter. -/
theorem c9_witness :
    (FP.mkOutput FP.baseSwap paWitness stWitnessFP).quoter
        = some paWitness ∧
    (FP.mkOutput FP.baseSwap paWitness stWitnessFP).fee = some 3000 ∧
    (P2.mkOutput P2.aerodromeCL paWitness
        (.v3 wethAddr junkTok 200000000000000 500 100)).pool
      = some paWitness ∧
    (P2.mkOutput P2.aerodromeCL paWitness
        (.v3 wethAddr junkTok 200000000000000 500 100)).quoter
      = P2.aerodromeCL.quoter := by
  have h := c9_routing_fields FP.baseSwap P2.aerodromeCL paWitness paWitness
    stWitnessFP (.v3 wethAddr junkTok 200000000000000 500 100)
    (FP.mkOutput FP.baseSwap paWitness stWitnessFP)
    (P2.mkOutput P2.aerodromeCL paWitness
      (.v3 wethAddr junkTok 200000000000000 500 100))
  have h1 := (h.1 (by rfl)).1 rfl
  have h2 := (h.2 (by rfl)).2 (Or.inr rfl)
  exact ⟨h1.1, h1.2, h2.1, h2.2⟩

set_option maxHeartbeats 2000000 in
/-- C10: whitelist membership in the main scanner is a case-sensitive,
character-for-character string comparison against the `TOKEN_CONFIG`
keys — the checksummed USDC key is whitelisted while its all-lowercase
spelling (the same account, differing only in letter capitalization) is
not — whereas the `part_002` variant lowercases the address first and so
accepts both spellings. -/
theorem c10_whitelist_case_sensitivity (addr : String) :
    (FP.isWhitelisted addr = true ↔ addr ∈ FP.tokenKeys) ∧
    FP.isWhitelisted usdcCk = true ∧
    FP.isWhitelisted usdcLo = false ∧
    lowerAddr usdcCk = usdcLo ∧
    usdcCk ≠ usdcLo ∧
    P2.isWhitelisted usdcCk = true ∧
    P2.isWhitelisted usdcLo = true := by
  refine ⟨?_, rfl, by decide, by decide, by decide, by decide, by decide⟩
  unfold FP.isWhitelisted
  exact List.elem_iff
